import Mathlib

/-!
Shallow embedding of the development HTTP service in src/test-api-2/src/main.py.

The service is one Python process: module-level startup code probes two
optional libraries (numpy and pandas) and records availability flags, the
module registers seven GET routes on a FastAPI application (whose creation
with default settings also installs the four documentation routes of the
framework), and a __main__ block picks the listening port from the first
command-line argument.

The embedding models JSON response bodies with the inductive type JsonV,
the immutable process-wide configuration with ProcState, and each request
handler as a pure function from ProcState to a response.  A transformation
step that may raise a Python exception is represented by an Option Exc
field of the state: none means the step succeeds, some e means it raises an
exception carrying message e.msg whose formatted traceback is e.tb.
-/

/-- JSON values as returned by the handlers. -/
inductive JsonV where
  | str : String → JsonV
  | int : Int → JsonV
  | bool : Bool → JsonV
  | null : JsonV
  | arr : List JsonV → JsonV
  | obj : List (String × JsonV) → JsonV
deriving Repr

/-- Lookup of a key in an association list of JSON object fields,
matching Python dict access on the literal keys used by the handlers. -/
def getKey : List (String × JsonV) → String → Option JsonV
  | [], _ => none
  | (k, v) :: rest, key => if k = key then some v else getKey rest key

/-- Field access on a JSON value: defined on objects, none elsewhere. -/
def JsonV.lookup : JsonV → String → Option JsonV
  | .obj fields, key => getKey fields key
  | _, _ => none

/-- Whether a JSON object carries the given key. -/
def JsonV.hasKey (j : JsonV) (k : String) : Bool :=
  (j.lookup k).isSome

/-- Model of a raised Python exception: str(e) and traceback.format_exc(). -/
structure Exc where
  msg : String
  tb : String

/-- Process-wide state fixed at startup.  apiName is API_NAME, the two
availability flags are numpy_available and pandas_available (in the source
the module aliases np and pd are non-None exactly when the matching flag is
true, since both are set in the same try block, so the flag alone models
the guard).  numpyExc and pandasExc model whether the per-request
transformation step of /test raises when its branch runs. -/
structure ProcState where
  apiName : String
  numpyAvailable : Bool
  pandasAvailable : Bool
  numpyExc : Option Exc
  pandasExc : Option Exc
  numpyVersion : String
  numpyPath : String
  pandasVersion : String
  pandasPath : String
  pythonVersion : String
  executable : String

/-- Handler for GET / . -/
def root (s : ProcState) : JsonV :=
  .obj [("status", .str "ok"),
        ("message", .str (s.apiName ++ " is running")),
        ("api_name", .str s.apiName)]

/-- Handler for GET /health . -/
def health (s : ProcState) : JsonV :=
  .obj [("status", .str "healthy"),
        ("api_name", .str s.apiName),
        ("message", .str "All systems operational"),
        ("numpy_available", .bool s.numpyAvailable),
        ("pandas_available", .bool s.pandasAvailable)]

/-- Handler for GET /test .  Mirrors the source branch for branch: the
numpy branch runs when numpy_available (scaling the fixed sample list
tenfold), the pandas branch only otherwise (pairing column_a with the
doubled column_b as a list of records), and the final else reports that
neither library is available.  An exception in a branch is caught there and
turned into the error payload, error data_type and error_details recorded
by the source. -/
def test (s : ProcState) : JsonV :=
  let sample_list : List Int := [1, 2, 3, 4, 5]
  let branch : JsonV × String × Option JsonV :=
    if s.numpyAvailable then
      match s.numpyExc with
      | none =>
          (.arr ((sample_list.map (fun x => x * 10)).map .int),
           "numpy_array_as_list", none)
      | some e =>
          (.obj [("error", .str ("Numpy processing failed: " ++ e.msg))],
           "error",
           some (.obj [("stage", .str "numpy_processing"),
                       ("error", .str e.msg),
                       ("traceback", .str e.tb)]))
    else if s.pandasAvailable then
      match s.pandasExc with
      | none =>
          (.arr (sample_list.map (fun x =>
             .obj [("column_a", .int x), ("column_b", .int (x * 2))])),
           "pandas_dataframe_as_dict", none)
      | some e =>
          (.obj [("error", .str ("Pandas processing failed: " ++ e.msg))],
           "error",
           some (.obj [("stage", .str "pandas_processing"),
                       ("error", .str e.msg),
                       ("traceback", .str e.tb)]))
    else
      (.obj [("error", .str "Neither numpy nor pandas is available")],
       "error",
       some (.obj [("stage", .str "import"),
                   ("error", .str "Neither numpy nor pandas is available"),
                   ("numpy_available", .bool s.numpyAvailable),
                   ("pandas_available", .bool s.pandasAvailable)]))
  let data_payload := branch.1
  let data_type := branch.2.1
  let error_details := branch.2.2
  let base : List (String × JsonV) :=
    [("status", .str (if data_type ≠ "error" then "success" else "error")),
     ("api_name", .str s.apiName),
     ("data_type", .str data_type),
     ("data", data_payload),
     ("message", .str ("This is test data from " ++ s.apiName))]
  match error_details with
  | some ed => .obj (base ++ [("error_details", ed)])
  | none => .obj base

/-- Handler for GET /debug/imports .  The version and path of a library are
reported when its flag is true and are JSON null otherwise, exactly as the
conditional expressions in the source. -/
def debug_imports (s : ProcState) : JsonV :=
  .obj [("api_name", .str s.apiName),
        ("imports",
          .obj [("numpy",
                  .obj [("available", .bool s.numpyAvailable),
                        ("version",
                          if s.numpyAvailable then .str s.numpyVersion else .null),
                        ("path",
                          if s.numpyAvailable then .str s.numpyPath else .null)]),
                ("pandas",
                  .obj [("available", .bool s.pandasAvailable),
                        ("version",
                          if s.pandasAvailable then .str s.pandasVersion else .null),
                        ("path",
                          if s.pandasAvailable then .str s.pandasPath else .null)])]),
        ("python_version", .str s.pythonVersion),
        ("executable", .str s.executable)]

/-- Routes the module itself registers with app.get, as (path, handler
name) pairs in decorator order. -/
def registeredRoutes : List (String × String) :=
  [("/", "root"),
   ("/health", "health"),
   ("/debug/imports", "debug_imports"),
   ("/debug/routes", "debug_routes"),
   ("/info", "info"),
   ("/test", "test"),
   ("/shutdown", "shutdown")]

/-- Documentation routes that creating the FastAPI application with
default settings installs before any decorator of the module runs, as
(path, endpoint name, methods) triples in installation order; the router
adds HEAD alongside GET on these plain routes. -/
def defaultDocRoutes : List (String × String × List String) :=
  [("/openapi.json", "openapi", ["GET", "HEAD"]),
   ("/docs", "swagger_ui_html", ["GET", "HEAD"]),
   ("/docs/oauth2-redirect", "swagger_ui_redirect", ["GET", "HEAD"]),
   ("/redoc", "redoc_html", ["GET", "HEAD"])]

/-- The app.routes list that /debug/routes iterates over: the framework
documentation routes followed by the seven module-registered routes. -/
def appRoutes : List (String × String × List String) :=
  defaultDocRoutes ++ registeredRoutes.map (fun r => (r.1, r.2, ["GET"]))

/-- Handler for GET /debug/routes .  Every route on the application has a
path attribute, so the hasattr filter of the source keeps all of them,
the four framework documentation routes included; each entry reports
path, endpoint name and methods. -/
def debug_routes (s : ProcState) : JsonV :=
  let routes := appRoutes.map (fun r =>
    JsonV.obj [("path", .str r.1),
               ("name", .str r.2.1),
               ("methods", .arr (r.2.2.map .str))])
  .obj [("api_name", .str s.apiName),
        ("total_routes", .int routes.length),
        ("routes", .arr routes)]

/-- Handler for GET /info , with the literal endpoints list of the source. -/
def info (s : ProcState) : JsonV :=
  .obj [("api_name", .str s.apiName),
        ("version", .str "1.0.0"),
        ("numpy_available", .bool s.numpyAvailable),
        ("pandas_available", .bool s.pandasAvailable),
        ("endpoints",
          .arr [.obj [("path", .str "/"), ("method", .str "GET"),
                      ("description", .str "Root endpoint")],
                .obj [("path", .str "/health"), ("method", .str "GET"),
                      ("description", .str "Health check")],
                .obj [("path", .str "/info"), ("method", .str "GET"),
                      ("description", .str "API information")],
                .obj [("path", .str "/test"), ("method", .str "GET"),
                      ("description", .str "Test endpoint with sample data")],
                .obj [("path", .str "/debug/imports"), ("method", .str "GET"),
                      ("description", .str "Import status")],
                .obj [("path", .str "/debug/routes"), ("method", .str "GET"),
                      ("description", .str "Registered routes")],
                .obj [("path", .str "/shutdown"), ("method", .str "GET"),
                      ("description", .str "Shutdown endpoint")]])]

/-- Paths listed by the endpoints field of a JSON response. -/
def endpointPaths (j : JsonV) : List String :=
  match j.lookup "endpoints" with
  | some (.arr es) =>
      es.filterMap (fun e =>
        match e.lookup "path" with
        | some (.str p) => some p
        | _ => none)
  | _ => []

/-- Paths listed by the routes field of a JSON response. -/
def routePaths (j : JsonV) : List String :=
  match j.lookup "routes" with
  | some (.arr es) =>
      es.filterMap (fun e =>
        match e.lookup "path" with
        | some (.str p) => some p
        | _ => none)
  | _ => []

/-- Outcome of running a handler: either a JSON response is produced, or
the process terminates with the given exit code before any response. -/
inductive HandlerOutcome where
  | response : JsonV → HandlerOutcome
  | procExit : Nat → HandlerOutcome

/-- Handler for GET /shutdown .  The source prints three log lines and then
calls os._exit(0): the process ends with exit code 0 and no response value
is ever produced. -/
def shutdown (_s : ProcState) : HandlerOutcome :=
  .procExit 0

/-- Dispatch of one GET request to the handler registered for its path.
Unknown paths get the framework default not-found body. -/
def handle (s : ProcState) (path : String) : HandlerOutcome :=
  if path = "/" then .response (root s)
  else if path = "/health" then .response (health s)
  else if path = "/debug/imports" then .response (debug_imports s)
  else if path = "/debug/routes" then .response (debug_routes s)
  else if path = "/info" then .response (info s)
  else if path = "/test" then .response (test s)
  else if path = "/shutdown" then shutdown s
  else .response (.obj [("detail", .str "Not Found")])

/-- Serving a sequence of requests: each request gets its response, until a
handler terminates the process, after which no further request is served. -/
def serve (s : ProcState) : List String → List JsonV
  | [] => []
  | p :: rest =>
      match handle s p with
      | .response j => j :: serve s rest
      | .procExit _ => []

/-- The /test handler as a state transformer over the process state.  The
source handler only reads the module globals (the availability flags and
API_NAME) and writes none of them, so the state passes through unchanged. -/
def testStep (s : ProcState) : JsonV × ProcState :=
  (test s, s)

/-- Modelled from Python int() applied to a command-line argument string:
surrounding whitespace is stripped, an optional single + or - sign is
accepted, and then a nonempty run of base-10 digits in which single
underscores may separate digits; anything else raises ValueError, modelled
as none.  parseDigitsGo accumulates the value over the remaining digits. -/
def parseDigitsGo (acc : Nat) : List Char → Option Nat
  | [] => some acc
  | '_' :: c :: rest =>
      if c.isDigit then parseDigitsGo (acc * 10 + (c.toNat - 48)) rest else none
  | c :: rest =>
      if c.isDigit then parseDigitsGo (acc * 10 + (c.toNat - 48)) rest else none

/-- Parse of a nonempty underscore-separated digit run, leading digit
required. -/
def parseDigits : List Char → Option Nat
  | [] => none
  | c :: rest =>
      if c.isDigit then parseDigitsGo (c.toNat - 48) rest else none

/-- Whitespace characters stripped by int() before parsing. -/
def isSpaceChar (c : Char) : Bool :=
  c = ' ' || c = '\t' || c = '\n' || c = '\r' || c = '\x0b' || c = '\x0c'

/-- Strip of leading and trailing whitespace from a character list. -/
def pyStrip (l : List Char) : List Char :=
  ((l.dropWhile isSpaceChar).reverse.dropWhile isSpaceChar).reverse

/-- Parse of a full argument string the way int() accepts it. -/
def pyParseInt (a : String) : Option Int :=
  match pyStrip a.toList with
  | '+' :: r => (parseDigits r).map Int.ofNat
  | '-' :: r => (parseDigits r).map (fun n => -(Int.ofNat n))
  | r => (parseDigits r).map Int.ofNat

/-- Port selection of the __main__ block: port starts at 8000; when a first
command-line argument is present, int() of it replaces the port, and the
ValueError of an unparsable argument is caught, keeping 8000.  args is
sys.argv without the leading program name. -/
def selectPort (args : List String) : Int :=
  match args with
  | [] => 8000
  | a :: _ =>
      match pyParseInt a with
      | some n => n
      | none => 8000

/-! Concrete process states used as witnesses and counterexamples. -/

/-- State with both libraries available and both transforms succeeding. -/
def sBoth : ProcState :=
  ⟨"Test API", true, true, none, none, "1.24.0", "/usr/lib/numpy",
   "2.0.0", "/usr/lib/pandas", "3.11.0", "/usr/bin/python"⟩

/-- State with only numpy available, its transform succeeding. -/
def sNumpyOnly : ProcState :=
  ⟨"Test API", true, false, none, none, "1.24.0", "/usr/lib/numpy",
   "", "", "3.11.0", "/usr/bin/python"⟩

/-- State with only pandas available, its transform succeeding. -/
def sPandasOnly : ProcState :=
  ⟨"Test API", false, true, none, none, "", "",
   "2.0.0", "/usr/lib/pandas", "3.11.0", "/usr/bin/python"⟩

/-- State with neither library available. -/
def sNone : ProcState :=
  ⟨"Test API", false, false, none, none, "", "", "", "",
   "3.11.0", "/usr/bin/python"⟩

/-- State where the numpy transform raises an exception. -/
def sNumpyErr : ProcState :=
  ⟨"Test API", true, true, some ⟨"boom", "Traceback: boom"⟩, none,
   "1.24.0", "/usr/lib/numpy", "2.0.0", "/usr/lib/pandas",
   "3.11.0", "/usr/bin/python"⟩

/-- Claim C1, counterexample: in the state where numpy is unavailable but
pandas is available and succeeds, /test returns the pandas data type, not
the error data type, refuting the claim as stated. -/
theorem c1_counterexample :
    sPandasOnly.numpyAvailable = false ∧
    (test sPandasOnly).lookup "data_type" =
      some (JsonV.str "pandas_dataframe_as_dict") ∧
    (test sPandasOnly).lookup "data_type" ≠ some (JsonV.str "error") := by
  refine ⟨rfl, rfl, ?_⟩
  simp [test, sPandasOnly, JsonV.lookup, getKey]

/-- Claim C1, amended: when numpy is unavailable and the pandas path also
produces no data (pandas unavailable, or its transformation raises), /test
returns data_type error and a data object containing an error key. -/
theorem c1_amended (s : ProcState) (hn : s.numpyAvailable = false)
    (hp : s.pandasAvailable = false ∨ s.pandasExc.isSome = true) :
    (test s).lookup "data_type" = some (JsonV.str "error") ∧
    ∃ d, (test s).lookup "data" = some d ∧ d.hasKey "error" = true := by
  rcases hp with hp | hp
  · exact ⟨by simp [test, hn, hp, JsonV.lookup, getKey],
      JsonV.obj [("error", JsonV.str "Neither numpy nor pandas is available")],
      by simp [test, hn, hp, JsonV.lookup, getKey],
      by simp [JsonV.hasKey, JsonV.lookup, getKey]⟩
  · obtain ⟨e, he⟩ := Option.isSome_iff_exists.mp hp
    by_cases hpa : s.pandasAvailable
    · exact ⟨by simp [test, hn, hpa, he, JsonV.lookup, getKey],
        JsonV.obj [("error", JsonV.str ("Pandas processing failed: " ++ e.msg))],
        by simp [test, hn, hpa, he, JsonV.lookup, getKey],
        by simp [JsonV.hasKey, JsonV.lookup, getKey]⟩
    · simp only [Bool.not_eq_true] at hpa
      exact ⟨by simp [test, hn, hpa, JsonV.lookup, getKey],
        JsonV.obj [("error", JsonV.str "Neither numpy nor pandas is available")],
        by simp [test, hn, hpa, JsonV.lookup, getKey],
        by simp [JsonV.hasKey, JsonV.lookup, getKey]⟩

/-- Claim C1, witness: the amended claim instantiated at the state with
neither library available. -/
theorem c1_witness :
    (test sNone).lookup "data_type" = some (JsonV.str "error") ∧
    ∃ d, (test sNone).lookup "data" = some d ∧ d.hasKey "error" = true :=
  c1_amended sNone rfl (Or.inl rfl)

/-- Claim C2, counterexample: the documentation route /docs is registered
on the application and reported by /debug/routes, yet the endpoints list
of /info does not contain it, refuting the claimed set equality. -/
theorem c2_counterexample :
    "/docs" ∈ routePaths (debug_routes sBoth) ∧
    "/docs" ∉ endpointPaths (info sBoth) := by
  constructor <;> decide

/-- Claim C2, amended: every path in the endpoints list of /info is a
route registered on the application (so reported by /debug/routes), and
the endpoints list enumerates exactly the module-registered routes; the
routes /debug/routes reports are exactly those plus the four
documentation routes the framework itself installs. -/
theorem c2_amended (s : ProcState) (p : String) :
    (p ∈ endpointPaths (info s) → p ∈ routePaths (debug_routes s)) ∧
    (p ∈ endpointPaths (info s) ↔ p ∈ registeredRoutes.map Prod.fst) ∧
    (p ∈ routePaths (debug_routes s) ↔
      (p ∈ defaultDocRoutes.map Prod.fst ∨
       p ∈ registeredRoutes.map Prod.fst)) := by
  have h1 : endpointPaths (info s) =
      ["/", "/health", "/info", "/test", "/debug/imports", "/debug/routes",
       "/shutdown"] := rfl
  have h2 : routePaths (debug_routes s) =
      ["/openapi.json", "/docs", "/docs/oauth2-redirect", "/redoc",
       "/", "/health", "/debug/imports", "/debug/routes", "/info", "/test",
       "/shutdown"] := rfl
  rw [h1, h2]
  refine ⟨?_, ?_, ?_⟩ <;>
    simp only [List.mem_cons, List.map, List.mem_singleton,
      List.not_mem_nil, or_false, registeredRoutes, defaultDocRoutes] <;>
    tauto

/-- Claim C2, witness: the amended claim instantiated at the health route,
whose presence in the endpoints list of /info puts it among the routes
reported by /debug/routes. -/
theorem c2_witness :
    "/health" ∈ routePaths (debug_routes sBoth) :=
  (c2_amended sBoth "/health").1 (by decide)

/-- Claim C3: when numpy is available and its transform succeeds, /test
returns the sample list scaled tenfold with the numpy data type. -/
theorem c3 (s : ProcState) (hn : s.numpyAvailable = true)
    (he : s.numpyExc = none) :
    (test s).lookup "data" = some (JsonV.arr
      [JsonV.int 10, JsonV.int 20, JsonV.int 30, JsonV.int 40, JsonV.int 50]) ∧
    (test s).lookup "data_type" = some (JsonV.str "numpy_array_as_list") := by
  constructor <;> simp [test, hn, he, JsonV.lookup, getKey]

/-- Claim C3, witness: instantiated at the state with only numpy. -/
theorem c3_witness :
    (test sNumpyOnly).lookup "data" = some (JsonV.arr
      [JsonV.int 10, JsonV.int 20, JsonV.int 30, JsonV.int 40, JsonV.int 50]) ∧
    (test sNumpyOnly).lookup "data_type" =
      some (JsonV.str "numpy_array_as_list") :=
  c3 sNumpyOnly rfl rfl

/-- Claim C4: when both libraries are available the numpy branch alone
decides the outcome: the pandas data type is impossible, and the response
is unchanged under any value of the pandas availability flag and the
pandas exception state. -/
theorem c4 (s : ProcState) (hn : s.numpyAvailable = true)
    (_hp : s.pandasAvailable = true) :
    (test s).lookup "data_type" ≠ some (JsonV.str "pandas_dataframe_as_dict") ∧
    ∀ (b : Bool) (e : Option Exc),
      test s = test { s with pandasAvailable := b, pandasExc := e } := by
  constructor
  · cases he : s.numpyExc <;> simp [test, hn, he, JsonV.lookup, getKey]
  · intro b e
    cases he : s.numpyExc <;> simp [test, hn, he]

/-- Claim C4, witness: instantiated at the state with both libraries. -/
theorem c4_witness :
    (test sBoth).lookup "data_type" ≠
      some (JsonV.str "pandas_dataframe_as_dict") ∧
    test sBoth = test { sBoth with pandasAvailable := false,
                                   pandasExc := none } :=
  ⟨(c4 sBoth rfl rfl).1, (c4 sBoth rfl rfl).2 false none⟩

/-- Claim C5: when numpy is unavailable, pandas is available and its
transform succeeds, /test returns the pandas data type and the five
column_a, column_b records with column_b doubled. -/
theorem c5 (s : ProcState) (hn : s.numpyAvailable = false)
    (hp : s.pandasAvailable = true) (he : s.pandasExc = none) :
    (test s).lookup "data_type" =
      some (JsonV.str "pandas_dataframe_as_dict") ∧
    (test s).lookup "data" = some (JsonV.arr
      [JsonV.obj [("column_a", JsonV.int 1), ("column_b", JsonV.int 2)],
       JsonV.obj [("column_a", JsonV.int 2), ("column_b", JsonV.int 4)],
       JsonV.obj [("column_a", JsonV.int 3), ("column_b", JsonV.int 6)],
       JsonV.obj [("column_a", JsonV.int 4), ("column_b", JsonV.int 8)],
       JsonV.obj [("column_a", JsonV.int 5), ("column_b", JsonV.int 10)]]) := by
  constructor <;> simp [test, hn, hp, he, JsonV.lookup, getKey]

/-- Claim C5, witness: instantiated at the state with only pandas. -/
theorem c5_witness :
    (test sPandasOnly).lookup "data_type" =
      some (JsonV.str "pandas_dataframe_as_dict") ∧
    (test sPandasOnly).lookup "data" = some (JsonV.arr
      [JsonV.obj [("column_a", JsonV.int 1), ("column_b", JsonV.int 2)],
       JsonV.obj [("column_a", JsonV.int 2), ("column_b", JsonV.int 4)],
       JsonV.obj [("column_a", JsonV.int 3), ("column_b", JsonV.int 6)],
       JsonV.obj [("column_a", JsonV.int 4), ("column_b", JsonV.int 8)],
       JsonV.obj [("column_a", JsonV.int 5), ("column_b", JsonV.int 10)]]) :=
  c5 sPandasOnly rfl rfl rfl

/-- Claim C6: an exception raised in whichever transformation branch runs
is caught there: the response still exists as a normal body with data_type
error, a data object carrying an error key, and an error_details object
whose stage is set and whose error and traceback fields carry the message
and formatted traceback of the exception. -/
theorem c6 (s : ProcState) (e : Exc)
    (h : (s.numpyAvailable = true ∧ s.numpyExc = some e) ∨
         (s.numpyAvailable = false ∧ s.pandasAvailable = true ∧
          s.pandasExc = some e)) :
    (test s).lookup "data_type" = some (JsonV.str "error") ∧
    (∃ d, (test s).lookup "data" = some d ∧ d.hasKey "error" = true) ∧
    (∃ ed, (test s).lookup "error_details" = some ed ∧
       (ed.lookup "stage").isSome = true ∧
       ed.lookup "error" = some (JsonV.str e.msg) ∧
       ed.lookup "traceback" = some (JsonV.str e.tb)) := by
  rcases h with ⟨hn, he⟩ | ⟨hn, hp, he⟩
  · refine ⟨by simp [test, hn, he, JsonV.lookup, getKey],
      ⟨JsonV.obj [("error", JsonV.str ("Numpy processing failed: " ++ e.msg))],
        by simp [test, hn, he, JsonV.lookup, getKey],
        by simp [JsonV.hasKey, JsonV.lookup, getKey]⟩,
      ⟨JsonV.obj [("stage", JsonV.str "numpy_processing"),
                  ("error", JsonV.str e.msg),
                  ("traceback", JsonV.str e.tb)],
        by simp [test, hn, he, JsonV.lookup, getKey],
        by simp [JsonV.lookup, getKey], by simp [JsonV.lookup, getKey],
        by simp [JsonV.lookup, getKey]⟩⟩
  · refine ⟨by simp [test, hn, hp, he, JsonV.lookup, getKey],
      ⟨JsonV.obj [("error", JsonV.str ("Pandas processing failed: " ++ e.msg))],
        by simp [test, hn, hp, he, JsonV.lookup, getKey],
        by simp [JsonV.hasKey, JsonV.lookup, getKey]⟩,
      ⟨JsonV.obj [("stage", JsonV.str "pandas_processing"),
                  ("error", JsonV.str e.msg),
                  ("traceback", JsonV.str e.tb)],
        by simp [test, hn, hp, he, JsonV.lookup, getKey],
        by simp [JsonV.lookup, getKey], by simp [JsonV.lookup, getKey],
        by simp [JsonV.lookup, getKey]⟩⟩

/-- Claim C6, witness: instantiated at the state whose numpy transform
raises the exception boom. -/
theorem c6_witness :
    (test sNumpyErr).lookup "data_type" = some (JsonV.str "error") ∧
    (∃ d, (test sNumpyErr).lookup "data" = some d ∧
       d.hasKey "error" = true) ∧
    (∃ ed, (test sNumpyErr).lookup "error_details" = some ed ∧
       (ed.lookup "stage").isSome = true ∧
       ed.lookup "error" = some (JsonV.str "boom") ∧
       ed.lookup "traceback" = some (JsonV.str "Traceback: boom")) :=
  c6 sNumpyErr ⟨"boom", "Traceback: boom"⟩ (Or.inl ⟨rfl, rfl⟩)

/-- Claim C7: the /test handler leaves the process state unchanged, so a
second evaluation from the state left by the first returns the identical
payload. -/
theorem c7 (s : ProcState) :
    (testStep s).2 = s ∧
    (testStep ((testStep s).2)).1 = (testStep s).1 :=
  ⟨rfl, rfl⟩

/-- Claim C8: a first argument accepted by int() selects that integer as
the port, a first argument rejected by int() falls back to 8000, and an
empty argument list falls back to 8000. -/
theorem c8 :
    (∀ (a : String) (rest : List String) (n : Int),
       pyParseInt a = some n → selectPort (a :: rest) = n) ∧
    (∀ (a : String) (rest : List String),
       pyParseInt a = none → selectPort (a :: rest) = 8000) ∧
    selectPort [] = 8000 := by
  refine ⟨?_, ?_, rfl⟩
  · intro a rest n h
    simp [selectPort, h]
  · intro a rest h
    simp [selectPort, h]

/-- Claim C8, witness: concrete parses, including a negative value with
surrounding whitespace and an underscore, a rejected argument, and the
empty argument list. -/
theorem c8_witness :
    selectPort ["8080"] = 8080 ∧
    selectPort ["  -1_0"] = -10 ∧
    selectPort ["abc"] = 8000 ∧
    selectPort [] = 8000 :=
  ⟨c8.1 "8080" [] 8080 (by decide),
   c8.1 "  -1_0" [] (-10) (by decide),
   c8.2.1 "abc" [] (by decide),
   c8.2.2⟩

/-- Dispatch of any path other than /shutdown always yields a response. -/
theorem handle_of_ne (s : ProcState) (p : String) (hp : p ≠ "/shutdown") :
    ∃ j, handle s p = .response j := by
  unfold handle
  split_ifs with h1 h2 h3 h4 h5 h6 <;> exact ⟨_, rfl⟩

/-- Serving requests up to a first /shutdown: every earlier request gets a
response and nothing after the shutdown is served. -/
theorem serve_append_shutdown (s : ProcState) (pre post : List String)
    (h : ∀ p ∈ pre, p ≠ "/shutdown") :
    serve s (pre ++ "/shutdown" :: post) = serve s pre ∧
    (serve s pre).length = pre.length := by
  induction pre with
  | nil => exact ⟨rfl, rfl⟩
  | cons p rest ih =>
    have hp : p ≠ "/shutdown" := h p (by simp)
    obtain ⟨j, hj⟩ := handle_of_ne s p hp
    have ih2 := ih (fun q hq => h q (by simp [hq]))
    simp [serve, hj, ih2.1, ih2.2]

/-- Claim C9: the shutdown handler terminates the process with exit code 0
and never produces a response value, and in any request sequence whose
first /shutdown occurs after a shutdown-free prefix, exactly the prefix is
served and every request after the shutdown goes unserved. -/
theorem c9 (s : ProcState) (pre post : List String)
    (h : ∀ p ∈ pre, p ≠ "/shutdown") :
    shutdown s = HandlerOutcome.procExit 0 ∧
    (∀ j, shutdown s ≠ HandlerOutcome.response j) ∧
    serve s (pre ++ "/shutdown" :: post) = serve s pre ∧
    (serve s pre).length = pre.length := by
  refine ⟨rfl, ?_, serve_append_shutdown s pre post h⟩
  intro j hj
  exact HandlerOutcome.noConfusion hj

/-- Claim C9, witness: a health request, then shutdown, then a test
request: only the health response is produced. -/
theorem c9_witness :
    shutdown sBoth = HandlerOutcome.procExit 0 ∧
    shutdown sBoth ≠ HandlerOutcome.response JsonV.null ∧
    serve sBoth ["/health", "/shutdown", "/test"] = serve sBoth ["/health"] ∧
    (serve sBoth ["/health"]).length = 1 :=
  ⟨(c9 sBoth ["/health"] ["/test"] (by decide)).1,
   (c9 sBoth ["/health"] ["/test"] (by decide)).2.1 JsonV.null,
   (c9 sBoth ["/health"] ["/test"] (by decide)).2.2.1,
   (c9 sBoth ["/health"] ["/test"] (by decide)).2.2.2⟩

/-- Claim C10: in every state, the /test response has status error exactly
when its data_type is error, which holds exactly when the error_details
key is present; otherwise status is success and error_details is absent. -/
theorem c10 (s : ProcState) :
    ((test s).lookup "status" = some (JsonV.str "error") ↔
      (test s).lookup "data_type" = some (JsonV.str "error")) ∧
    ((test s).lookup "data_type" = some (JsonV.str "error") ↔
      (test s).hasKey "error_details" = true) ∧
    ((test s).lookup "data_type" ≠ some (JsonV.str "error") →
      (test s).lookup "status" = some (JsonV.str "success") ∧
      (test s).hasKey "error_details" = false) := by
  obtain ⟨name, na, pa, ne, pe, v1, p1, v2, p2, pv, ex⟩ := s
  cases na <;> cases pa <;> cases ne <;> cases pe <;>
    simp [test, JsonV.lookup, JsonV.hasKey, getKey]

/-- Claim C10, witness: in the numpy-only success state the implication of
the invariant fires: status is success and error_details is absent. -/
theorem c10_witness :
    (test sNumpyOnly).lookup "status" = some (JsonV.str "success") ∧
    (test sNumpyOnly).hasKey "error_details" = false :=
  (c10 sNumpyOnly).2.2
    (by simp [test, sNumpyOnly, JsonV.lookup, getKey])
